import Mathlib

/-!
# WebgiViewer: a verification development

A shallow embedding of `src/components/WebgiViewer.jsx`.

The component is glue code around two external libraries (the `webgi` render
engine and the `gsap` tweening library).  The embedding keeps

* the React state variables of the component (`viewerRef`, `cameraRef`,
  `positionRef`, `targetRef`, `previewMode`, `isMobile`),
* the two DOM nodes it writes to (`canvasContainerRef.current` and
  `props.contentRef.current`), either of which may be `null`,
* the fields of the viewer object that the component itself reads or writes,
* the closure variable `needsUpdate` of `setupViewer`,
* and the ordered log of every call the component makes into the two
  libraries.

A JavaScript `TypeError` raised by dereferencing `null` is an `Outcome.threw`
that carries the state reached at the point of failure.  Number literals are
the exact decimals written in the source, as rationals.
-/

namespace WebgiViewer

/-! ## Data model -/

/-- A three-component vector (`camera.position`, `camera.target`, tween destinations). -/
structure Vec3 where
  x : Rat
  y : Rat
  z : Rat
  deriving DecidableEq

/-- The argument of `viewer.addPlugin(...)` at each call site of `setupViewer`. -/
inductive Plugin where
  | AssetManagerPlugin
  | GBufferPlugin
  | ProgressivePlugin (samples : Nat)
  | TonemapPlugin (enabled : Bool)
  | GammaCorrectionPlugin
  | SSRPlugin
  | SSAOPlugin
  | BloomPlugin
  deriving DecidableEq

/-- The objects of the viewer that the state variables `cameraRef`, `positionRef`
and `targetRef` point to once they are set. -/
inductive Ref where
  | camera
  | position
  | target
  deriving DecidableEq

/-- The `scrollTrigger` option object of a `gsap.to` call. -/
structure ScrollTrigger where
  trigger : String
  start : String
  end_ : String
  scrub : Nat
  immediateRender : Bool
  deriving DecidableEq

/-- The arrow function `() => { viewerRef.setDirty(); cameraRef.positionTargetUpdated(true); }`
passed as `onUpdate`; it closes over the state variables `viewerRef` and `cameraRef`,
recorded here as whether each was non-null when the closure was created. -/
structure Callback where
  viewerRef : Bool
  cameraRef : Bool
  deriving DecidableEq

/-- One `gsap.to(target, vars)` call: the target object and the `vars` it was given. -/
structure Tween where
  target : Option Ref
  dest : Vec3
  duration : Option Nat
  scrollTrigger : Option ScrollTrigger
  onUpdate : Option Callback
  deriving DecidableEq

/-- A call made by the component into the render engine, the tween library, the
window, or the scroll-animation helper. -/
inductive Call where
  | newViewerApp
  | addPlugin (p : Plugin)
  | refreshPipeline
  | addFromPath (path : String)
  | setCameraOptions (controlsEnabled : Bool)
  | positionSet (v : Vec3)
  | targetSet (v : Vec3)
  | scrollTo (x y : Nat)
  | addEventListener (type : String)
  | scrollAnimation (isMobile : Bool)
  | gsapTo (t : Tween)
  | setDirty
  | positionTargetUpdated (flag : Bool)
  deriving DecidableEq

/-- The `style` fields of a DOM node that the component writes. -/
structure Style where
  pointerEvents : String
  opacity : String
  deriving DecidableEq

/-- A DOM node as far as the component touches it. -/
structure Element where
  style : Style
  className : String
  deriving DecidableEq

/-- The active camera of the viewer (`viewer.scene.activeCamera`). -/
structure Camera where
  position : Vec3
  target : Vec3
  controlsEnabled : Bool
  deriving DecidableEq

/-- The viewer object created by `new ViewerApp(...)`. -/
structure Viewer where
  plugins : List Plugin
  camera : Camera
  dirty : Bool
  clipBackground : Bool
  deriving DecidableEq

/-- The state of one mounted component. -/
structure Component where
  canvasContainer : Option Element
  content : Option Element
  viewerRef : Option Viewer
  targetRef : Option Ref
  cameraRef : Option Ref
  positionRef : Option Ref
  previewMode : Bool
  isMobile : Bool
  needsUpdate : Option Bool
  calls : List Call
  deriving DecidableEq

/-- What the environment decides for one run of `setupViewer`: the result of
`mobileAndTabletCheck()`, whether the promise of `manager.addFromPath` resolves,
and the camera of a freshly constructed viewer. -/
structure Env where
  isMobileorTablet : Bool
  assetLoads : Bool
  defaultCamera : Camera

/-- The result of running a piece of the component: it returned, or it threw,
in both cases with the state reached. -/
inductive Outcome where
  | returned (c : Component)
  | threw (c : Component)
  deriving DecidableEq

/-- The state an outcome carries. -/
def Outcome.state : Outcome → Component
  | .returned c => c
  | .threw c => c

/-- Sequencing of statements: a throw skips the rest. -/
def Outcome.andThen (o : Outcome) (f : Component → Outcome) : Outcome :=
  match o with
  | .returned c => f c
  | .threw c => .threw c

/-- Append one call to the log. -/
def Component.log (c : Component) (k : Call) : Component :=
  { c with calls := c.calls ++ [k] }

/-- The tweens among a list of calls, in call order. -/
def tweensOf : List Call → List Tween
  | [] => []
  | .gsapTo t :: ks => t :: tweensOf ks
  | _ :: ks => tweensOf ks

/-- The plugins passed to `addPlugin` among a list of calls, in call order. -/
def pluginsOf : List Call → List Plugin
  | [] => []
  | .addPlugin p :: ks => p :: pluginsOf ks
  | _ :: ks => pluginsOf ks

/-! ## Engine methods as the component uses them -/

/-- The call `viewer.addPlugin(p)`. -/
def Viewer.addPlugin (v : Viewer) (p : Plugin) : Viewer :=
  { v with plugins := v.plugins ++ [p] }

/-- The call `viewer.setDirty()`. -/
def Viewer.setDirty (v : Viewer) : Viewer :=
  { v with dirty := true }

/-- The call `viewer.scene.activeCamera.setCameraOptions({ controlsEnabled: b })`. -/
def Viewer.setCameraOptions (v : Viewer) (b : Bool) : Viewer :=
  { v with camera := { v.camera with controlsEnabled := b } }

/-- The lookup `viewer.getPlugin(TonemapPlugin)`: the attached tone-mapping plugin, if any. -/
def Viewer.getTonemapPlugin (v : Viewer) : Option Plugin :=
  v.plugins.find? fun p => match p with
    | .TonemapPlugin _ => true
    | _ => false

/-- The statement `viewerRef.scene.activeCamera.setCameraOptions({ controlsEnabled: b })`,
which throws when `viewerRef` is `null`. -/
def setControls (b : Bool) (c : Component) : Outcome :=
  match c.viewerRef with
  | none => .threw c
  | some v =>
    .returned ({ c with viewerRef := some (v.setCameraOptions b) }.log (.setCameraOptions b))

/-- The statement `canvasContainerRef.current.style.pointerEvents = s`. -/
def setPointerEvents (s : String) (c : Component) : Outcome :=
  match c.canvasContainer with
  | none => .threw c
  | some e =>
    .returned { c with canvasContainer := some { e with style := { e.style with pointerEvents := s } } }

/-- The statement `props.contentRef.current.style.opacity = s`. -/
def setOpacity (s : String) (c : Component) : Outcome :=
  match c.content with
  | none => .threw c
  | some e =>
    .returned { c with content := some { e with style := { e.style with opacity := s } } }

/-- The statement `props.contentRef.current.className = s`. -/
def setClassName (s : String) (c : Component) : Outcome :=
  match c.content with
  | none => .threw c
  | some e => .returned { c with content := some { e with className := s } }

/-- The call `gsap.to(target, vars)`; a `null` target is accepted by the library. -/
def gsapTo (t : Tween) (c : Component) : Outcome :=
  .returned (c.log (.gsapTo t))

/-- The `onUpdate` closure created by the current render: it captures the state
variables `viewerRef` and `cameraRef` as they are now. -/
def Component.onUpdate (c : Component) : Callback :=
  { viewerRef := c.viewerRef.isSome, cameraRef := c.cameraRef.isSome }

/-- A method call on the local constant `viewer` of `setupViewer` (never `null`
there): it updates the viewer object and is logged. -/
def onViewer (f : Viewer → Viewer) (k : Call) (c : Component) : Outcome :=
  match c.viewerRef with
  | none => .threw c
  | some v => .returned ({ c with viewerRef := some (f v) }.log k)

/-- The statement `await viewer.addPlugin(p)`. -/
def addPlugin (p : Plugin) (c : Component) : Outcome :=
  onViewer (fun v => v.addPlugin p) (.addPlugin p) c

/-- The statement `await manager.addFromPath(path)`: the call is made, and the
awaited promise resolves or rejects as the environment decides. -/
def addFromPath (env : Env) (path : String) (c : Component) : Outcome :=
  if env.assetLoads then .returned (c.log (.addFromPath path))
  else .threw (c.log (.addFromPath path))

/-- The statement `viewer.getPlugin(TonemapPlugin).config.clipBackground = true`. -/
def setClipBackground (c : Component) : Outcome :=
  match c.viewerRef with
  | none => .threw c
  | some v =>
    match v.getTonemapPlugin with
    | none => .threw c
    | some _ => .returned { c with viewerRef := some { v with clipBackground := true } }

/-- The statement `position.set(x, y, z)` on the camera position. -/
def positionSet (p : Vec3) (c : Component) : Outcome :=
  onViewer (fun v => { v with camera := { v.camera with position := p } }) (.positionSet p) c

/-- The statement `target.set(x, y, z)` on the camera target. -/
def targetSet (p : Vec3) (c : Component) : Outcome :=
  onViewer (fun v => { v with camera := { v.camera with target := p } }) (.targetSet p) c

/-! ## The component -/

/-- The method `triggerPreview` of the imperative handle (lines 52-76). -/
def triggerPreview (c : Component) : Outcome :=
  -- setPreviewMode(true);
  (Outcome.returned { c with previewMode := true }).andThen fun c1 =>
  (setPointerEvents "all" c1).andThen fun c2 =>
  (setOpacity "0" c2).andThen fun c3 =>
  (gsapTo { target := c.positionRef, dest := ⟨13.04, -2.01, 2.29⟩, duration := some 2,
            scrollTrigger := none, onUpdate := some c.onUpdate } c3).andThen fun c4 =>
  (gsapTo { target := c.targetRef, dest := ⟨0.11, 0.0, 0.0⟩, duration := some 2,
            scrollTrigger := none, onUpdate := none } c4).andThen fun c5 =>
  setControls true c5

/-- The mobile branch of `setupViewer` (lines 142-146). -/
def mobilePose (c : Component) : Outcome :=
  (positionSet ⟨-16.7, 1.17, 11.7⟩ c).andThen fun c1 =>
  (targetSet ⟨0, 1.37, 0⟩ c1).andThen fun c2 =>
  setClassName "mobile-or-tablet" c2

/-- The asynchronous function `setupViewer` (lines 88-164), run to completion or
to the first rejection or throw. -/
def setupViewer (env : Env) (c : Component) : Outcome :=
  -- const viewer = new ViewerApp({ canvas: canvasRef.current });
  -- setViewerRef(viewer); SetIsMobile(isMobileorTablet);
  let viewer : Viewer :=
    { plugins := [], camera := env.defaultCamera, dirty := false, clipBackground := false }
  let c0 := ({ c with viewerRef := some viewer, isMobile := env.isMobileorTablet }).log .newViewerApp
  (addPlugin .AssetManagerPlugin c0).andThen fun c1 =>
  -- setCameraRef(camera); setPositionRef(position); setTargetRef(target);
  (Outcome.returned { c1 with cameraRef := some .camera, positionRef := some .position,
                              targetRef := some .target }).andThen fun c2 =>
  (addPlugin .GBufferPlugin c2).andThen fun c3 =>
  (addPlugin (.ProgressivePlugin 32) c3).andThen fun c4 =>
  (addPlugin (.TonemapPlugin true) c4).andThen fun c5 =>
  (addPlugin .GammaCorrectionPlugin c5).andThen fun c6 =>
  (addPlugin .SSRPlugin c6).andThen fun c7 =>
  (addPlugin .SSAOPlugin c7).andThen fun c8 =>
  (addPlugin .BloomPlugin c8).andThen fun c9 =>
  -- viewer.renderer.refreshPipeline();
  (Outcome.returned (c9.log .refreshPipeline)).andThen fun c10 =>
  (addFromPath env "scene-black.glb" c10).andThen fun c11 =>
  (setClipBackground c11).andThen fun c12 =>
  (onViewer (fun v => v.setCameraOptions false) (.setCameraOptions false) c12).andThen fun c13 =>
  (if env.isMobileorTablet then mobilePose c13 else .returned c13).andThen fun c14 =>
  -- window.scrollTo(0, 0);
  (Outcome.returned (c14.log (.scrollTo 0 0))).andThen fun c15 =>
  -- let needsUpdate = true;
  (Outcome.returned { c15 with needsUpdate := some true }).andThen fun c16 =>
  -- viewer.addEventListener("preFrame", ...);
  (Outcome.returned (c16.log (.addEventListener "preFrame"))).andThen fun c17 =>
  -- memoizedScrollAnimation(position, target, isMobileorTablet, onUpload): the three
  -- guards `position && target && onUpdate` are objects and a function, hence truthy
  .returned (c17.log (.scrollAnimation env.isMobileorTablet))

/-- The closure `onUpload` of `setupViewer` (lines 151-154). -/
def onUpload (c : Component) : Component :=
  ({ c with needsUpdate := some true, viewerRef := c.viewerRef.map Viewer.setDirty }).log .setDirty

/-- The `preFrame` listener registered by `setupViewer` (lines 156-161). -/
def preFrame (c : Component) : Component :=
  match c.needsUpdate with
  | some true => ({ c with needsUpdate := some false }).log (.positionTargetUpdated true)
  | _ => c

/-- The callback `handleExit` of the Exit button (lines 170-205). -/
def handleExit (c : Component) : Outcome :=
  (setPointerEvents "none" c).andThen fun c1 =>
  (setOpacity "1" c1).andThen fun c2 =>
  (setControls false c2).andThen fun c3 =>
  -- setPreviewMode(false);
  (Outcome.returned { c3 with previewMode := false }).andThen fun c4 =>
  (gsapTo { target := c.positionRef,
            dest := ⟨if !c.isMobile then 1.56 else 9.36,
                     if !c.isMobile then 5.0 else 10.95,
                     if !c.isMobile then 0.01 else 0.0⟩,
            duration := none,
            scrollTrigger := some { trigger := ".display-section", start := "top bottom",
                                    end_ := "top top", scrub := 2, immediateRender := false },
            onUpdate := some c.onUpdate } c4).andThen fun c5 =>
  gsapTo { target := c.targetRef,
           dest := ⟨if !c.isMobile then -0.55 else -1.62,
                    if !c.isMobile then 0.32 else 0.02,
                    if !c.isMobile then 0.0 else -0.06⟩,
           duration := none,
           scrollTrigger := some { trigger := ".display-section", start := "top bottom",
                                   end_ := "top top", scrub := 2, immediateRender := false },
           onUpdate := none } c5

/-! ## Events after setup -/

/-- Running an `onUpdate` closure: `viewerRef.setDirty()` and then
`cameraRef.positionTargetUpdated(true)`, each of which throws on a captured `null`. -/
def Callback.run (cb : Callback) (c : Component) : Outcome :=
  if cb.viewerRef then
    let c1 := ({ c with viewerRef := c.viewerRef.map Viewer.setDirty }).log .setDirty
    if cb.cameraRef then .returned (c1.log (.positionTargetUpdated true))
    else .threw c1
  else .threw c

/-- What one update step of a tween makes the component do: the tween library
calls the `onUpdate` function of the tween, if it was given one. -/
def Tween.update (t : Tween) (c : Component) : Outcome :=
  match t.onUpdate with
  | none => .returned c
  | some cb => cb.run c

/-- The two kinds of event the per-frame hook reacts to: an update of the
scroll-driven tween (which calls `onUpload`) and a frame of the viewer (which
fires `preFrame`). -/
inductive Event where
  | update
  | frame
  deriving DecidableEq

/-- Deliver one event. -/
def Event.deliver (c : Component) : Event → Component
  | .update => onUpload c
  | .frame => preFrame c

/-- Deliver a sequence of events in order. -/
def deliverAll (c : Component) (es : List Event) : Component :=
  es.foldl Event.deliver c

/-- Whether a frame event delivered in state `c` forces the camera to recompute
its look-at transform, that is whether it calls `camera.positionTargetUpdated(true)`. -/
def recomputes (c : Component) : Prop :=
  (preFrame c).calls = c.calls ++ [.positionTargetUpdated true]

instance (c : Component) : Decidable (recomputes c) := by
  unfold recomputes; infer_instance

/-! ## States and environments used as concrete inputs -/

/-- A mounted component before `setupViewer` has run: both DOM nodes exist and
every state variable has its `useState` initial value. -/
def mounted : Component :=
  { canvasContainer := some { style := { pointerEvents := "none", opacity := "1" }, className := "" }
    content := some { style := { pointerEvents := "", opacity := "1" }, className := "content" }
    viewerRef := none, targetRef := none, cameraRef := none, positionRef := none
    previewMode := false, isMobile := false, needsUpdate := none, calls := [] }

/-- A desktop environment in which the asset loads. -/
def desktop : Env :=
  { isMobileorTablet := false, assetLoads := true,
    defaultCamera := { position := ⟨0, 0, 5⟩, target := ⟨0, 0, 0⟩, controlsEnabled := true } }

/-- A mobile environment in which the asset loads. -/
def mobile : Env :=
  { desktop with isMobileorTablet := true }

/-- Both DOM nodes the component writes to exist: `canvasContainerRef.current`
and `props.contentRef.current` are not `null`. -/
def Mounted (c : Component) : Prop :=
  c.canvasContainer.isSome ∧ c.content.isSome

instance (c : Component) : Decidable (Mounted c) := by
  unfold Mounted; infer_instance

/-- The state variables that `setupViewer` sets have been set: the viewer
handle is not `null` and the three references point into its camera. -/
def SetupDone (c : Component) : Prop :=
  c.viewerRef.isSome ∧ c.cameraRef = some .camera ∧ c.positionRef = some .position ∧
    c.targetRef = some .target

instance (c : Component) : Decidable (SetupDone c) := by
  unfold SetupDone; infer_instance

/-- The calls `setupViewer` makes up to and including the last `addPlugin`. -/
def setupPrefix : List Call :=
  [.newViewerApp, .addPlugin .AssetManagerPlugin, .addPlugin .GBufferPlugin,
   .addPlugin (.ProgressivePlugin 32), .addPlugin (.TonemapPlugin true),
   .addPlugin .GammaCorrectionPlugin, .addPlugin .SSRPlugin, .addPlugin .SSAOPlugin,
   .addPlugin .BloomPlugin]

/-- The calls `setupViewer` makes after `refreshPipeline`, by how far the run gets. -/
def setupSuffix (env : Env) (c : Component) : List Call :=
  .addFromPath "scene-black.glb" ::
    (if env.assetLoads then
      .setCameraOptions false ::
        (if env.isMobileorTablet then
          [.positionSet ⟨-16.7, 1.17, 11.7⟩, .targetSet ⟨0, 1.37, 0⟩] ++
            (if c.content.isSome then
              [.scrollTo 0 0, .addEventListener "preFrame", .scrollAnimation true]
            else [])
        else [.scrollTo 0 0, .addEventListener "preFrame", .scrollAnimation false])
    else [])

/-! ## Evaluation lemmas -/

@[simp] theorem andThen_returned (c : Component) (f : Component → Outcome) :
    (Outcome.returned c).andThen f = f c := rfl

@[simp] theorem andThen_threw (c : Component) (f : Component → Outcome) :
    (Outcome.threw c).andThen f = .threw c := rfl

@[simp] theorem state_returned (c : Component) : (Outcome.returned c).state = c := rfl

@[simp] theorem state_threw (c : Component) : (Outcome.threw c).state = c := rfl

/-- The full call trace of one run of `setupViewer`. -/
theorem setupViewer_calls (env : Env) (c : Component) :
    (setupViewer env c).state.calls =
      c.calls ++ (setupPrefix ++ .refreshPipeline :: setupSuffix env c) := by
  obtain ⟨m, a, cam⟩ := env
  cases m <;> cases a <;> cases hc : c.content <;>
    simp [setupViewer, setupPrefix, setupSuffix, addPlugin, onViewer, Component.log,
      addFromPath, setClipBackground, Viewer.getTonemapPlugin, Viewer.addPlugin,
      mobilePose, positionSet, targetSet, setClassName, hc, Viewer.setCameraOptions]

theorem pluginsOf_append (xs ys : List Call) :
    pluginsOf (xs ++ ys) = pluginsOf xs ++ pluginsOf ys := by
  induction xs with
  | nil => rfl
  | cons k ks ih => cases k <;> simp [pluginsOf, ih]

theorem tweensOf_append (xs ys : List Call) :
    tweensOf (xs ++ ys) = tweensOf xs ++ tweensOf ys := by
  induction xs with
  | nil => rfl
  | cons k ks ih => cases k <;> simp [tweensOf, ih]

/-- A run of `setupViewer` that returns leaves the state variables set, the
`needsUpdate` flag true and `isMobile` equal to the detected device class. -/
theorem setupViewer_returned (env : Env) (c c1 : Component)
    (h : setupViewer env c = .returned c1) :
    SetupDone c1 ∧ c1.needsUpdate = some true ∧ c1.isMobile = env.isMobileorTablet ∧
      c1.canvasContainer = c.canvasContainer := by
  obtain ⟨m, a, cam⟩ := env
  cases m <;> cases a <;> cases hc : c.content <;>
    simp [setupViewer, addPlugin, onViewer, Component.log,
      addFromPath, setClipBackground, Viewer.getTonemapPlugin, Viewer.addPlugin,
      mobilePose, positionSet, targetSet, setClassName, hc, Viewer.setCameraOptions] at h <;>
    subst h <;> simp [SetupDone]

/-- Claim C1. For every device class, whether or not the asset loads and from every
prior state, the calls made by one run of `setupViewer` split as `pre`, one
`refreshPipeline`, `post`: there is no other `refreshPipeline`, all eight
`addPlugin` calls are in `pre` and none in `post`, and the asset-load call
`addFromPath("scene-black.glb")` is in `post` and none in `pre`. -/
theorem setupViewer_refreshPipeline_once (env : Env) (c : Component) :
    ∃ pre post : List Call,
      (setupViewer env c).state.calls = c.calls ++ (pre ++ Call.refreshPipeline :: post) ∧
      Call.refreshPipeline ∉ pre ∧ Call.refreshPipeline ∉ post ∧
      (pluginsOf pre).length = 8 ∧ (∀ p, Call.addPlugin p ∉ post) ∧
      (∀ path, Call.addFromPath path ∉ pre) ∧ Call.addFromPath "scene-black.glb" ∈ post := by
  refine ⟨setupPrefix, setupSuffix env c, setupViewer_calls env c, ?_, ?_, ?_, ?_, ?_, ?_⟩
  · simp [setupPrefix]
  · unfold setupSuffix; split_ifs <;> simp
  · simp [setupPrefix, pluginsOf]
  · intro p; unfold setupSuffix; split_ifs <;> simp
  · intro path; simp [setupPrefix]
  · simp [setupSuffix]

/-- Claim C2 as stated, refuted. On a desktop mount the plugins passed to `addPlugin`
by `setupViewer` are not the seven-element list of the claim: the first plugin
attached is the asset manager. -/
theorem setupViewer_plugins_not_seven :
    pluginsOf (setupViewer desktop mounted).state.calls ≠
      [.GBufferPlugin, .ProgressivePlugin 32, .TonemapPlugin true, .GammaCorrectionPlugin,
       .SSRPlugin, .SSAOPlugin, .BloomPlugin] := by
  rw [setupViewer_calls]
  simp [pluginsOf_append, setupPrefix, pluginsOf, mounted]

/-- Claim C2, amended. For every device class, whether or not the asset loads and
from every prior state, the plugins `setupViewer` attaches are exactly the asset
manager followed by GBuffer, Progressive(32), Tonemap(true), GammaCorrection, SSR,
SSAO, Bloom, in this order: this is both the sequence of its `addPlugin` calls
and the plugin list of the viewer it leaves behind. -/
theorem setupViewer_plugins (env : Env) (c : Component) :
    pluginsOf (setupViewer env c).state.calls =
      pluginsOf c.calls ++
        [.AssetManagerPlugin, .GBufferPlugin, .ProgressivePlugin 32, .TonemapPlugin true,
         .GammaCorrectionPlugin, .SSRPlugin, .SSAOPlugin, .BloomPlugin] ∧
    ∃ v, (setupViewer env c).state.viewerRef = some v ∧
      v.plugins =
        [.AssetManagerPlugin, .GBufferPlugin, .ProgressivePlugin 32, .TonemapPlugin true,
         .GammaCorrectionPlugin, .SSRPlugin, .SSAOPlugin, .BloomPlugin] := by
  constructor
  · rw [setupViewer_calls, pluginsOf_append, pluginsOf_append]
    have h : pluginsOf (Call.refreshPipeline :: setupSuffix env c) = [] := by
      unfold setupSuffix; split_ifs <;> simp [pluginsOf]
    rw [h]; simp [setupPrefix, pluginsOf]
  · obtain ⟨m, a, cam⟩ := env
    cases m <;> cases a <;> cases hc : c.content <;>
      simp [setupViewer, addPlugin, onViewer, Component.log,
        addFromPath, setClipBackground, Viewer.getTonemapPlugin, Viewer.addPlugin,
        mobilePose, positionSet, targetSet, setClassName, hc, Viewer.setCameraOptions]

/-- The tweens `triggerPreview` starts whenever both DOM nodes exist, whether or
not the viewer handle is set. -/
theorem triggerPreview_started (c : Component) (hm : Mounted c) :
    tweensOf (triggerPreview c).state.calls =
      tweensOf c.calls ++
        [{ target := c.positionRef, dest := ⟨13.04, -2.01, 2.29⟩, duration := some 2,
           scrollTrigger := none, onUpdate := some c.onUpdate },
         { target := c.targetRef, dest := ⟨0.11, 0.0, 0.0⟩, duration := some 2,
           scrollTrigger := none, onUpdate := none }] := by
  obtain ⟨he, hk⟩ := hm
  obtain ⟨e, he⟩ := Option.isSome_iff_exists.mp he
  obtain ⟨k, hk⟩ := Option.isSome_iff_exists.mp hk
  cases hv : c.viewerRef <;>
    simp [triggerPreview, setPointerEvents, setOpacity, gsapTo, setControls, Component.log,
      tweensOf_append, tweensOf, he, hk, hv]

/-- Claim C3. From every state in which both DOM nodes exist and the viewer
handle is set (whatever the preview flag, the pointer-events value and the
content opacity were), `triggerPreview` returns and leaves the container with
`pointerEvents = "all"`, the content with `opacity = "0"`, the preview flag true
and `controlsEnabled` true on the camera. -/
theorem triggerPreview_state (c : Component) (hm : Mounted c) (hv : c.viewerRef.isSome) :
    ∃ c1 e k v, triggerPreview c = .returned c1 ∧
      c1.canvasContainer = some e ∧ e.style.pointerEvents = "all" ∧
      c1.content = some k ∧ k.style.opacity = "0" ∧
      c1.previewMode = true ∧
      c1.viewerRef = some v ∧ v.camera.controlsEnabled = true := by
  obtain ⟨he, hk⟩ := hm
  obtain ⟨e, he⟩ := Option.isSome_iff_exists.mp he
  obtain ⟨k, hk⟩ := Option.isSome_iff_exists.mp hk
  obtain ⟨v, hv⟩ := Option.isSome_iff_exists.mp hv
  simp [triggerPreview, setPointerEvents, setOpacity, gsapTo, setControls, Component.log,
    Viewer.setCameraOptions, he, hk, hv]

theorem triggerPreview_state_witness :
    Mounted (setupViewer desktop mounted).state ∧
    ∃ c1 e k v, triggerPreview (setupViewer desktop mounted).state = .returned c1 ∧
      c1.canvasContainer = some e ∧ e.style.pointerEvents = "all" ∧
      c1.content = some k ∧ k.style.opacity = "0" ∧
      c1.previewMode = true ∧
      c1.viewerRef = some v ∧ v.camera.controlsEnabled = true :=
  ⟨by decide, triggerPreview_state _ (by decide) (by decide)⟩

/-- Claim C4. From every state in which both DOM nodes exist and the viewer
handle is set (whatever the preview flag, the pointer-events value and the
content opacity were), `handleExit` returns and leaves the content with
`opacity = "1"`, the container with `pointerEvents = "none"`, `controlsEnabled`
false on the camera and the preview flag false. -/
theorem handleExit_state (c : Component) (hm : Mounted c) (hv : c.viewerRef.isSome) :
    ∃ c1 e k v, handleExit c = .returned c1 ∧
      c1.content = some k ∧ k.style.opacity = "1" ∧
      c1.canvasContainer = some e ∧ e.style.pointerEvents = "none" ∧
      c1.viewerRef = some v ∧ v.camera.controlsEnabled = false ∧
      c1.previewMode = false := by
  obtain ⟨he, hk⟩ := hm
  obtain ⟨e, he⟩ := Option.isSome_iff_exists.mp he
  obtain ⟨k, hk⟩ := Option.isSome_iff_exists.mp hk
  obtain ⟨v, hv⟩ := Option.isSome_iff_exists.mp hv
  simp [handleExit, setPointerEvents, setOpacity, gsapTo, setControls, Component.log,
    Viewer.setCameraOptions, he, hk, hv]

theorem handleExit_state_witness :
    Mounted (triggerPreview (setupViewer mobile mounted).state).state ∧
    ∃ c1 e k v, handleExit (triggerPreview (setupViewer mobile mounted).state).state =
        .returned c1 ∧
      c1.content = some k ∧ k.style.opacity = "1" ∧
      c1.canvasContainer = some e ∧ e.style.pointerEvents = "none" ∧
      c1.viewerRef = some v ∧ v.camera.controlsEnabled = false ∧
      c1.previewMode = false :=
  ⟨by decide, handleExit_state _ (by decide) (by decide)⟩

/-- Claim C5. Whenever the asset loads (and, on mobile/tablet, the content node
exists), `setupViewer` returns, and the pose it leaves is selected by the
device-class boolean alone: on mobile/tablet the camera position is
(-16.7, 1.17, 11.7), the target is (0, 1.37, 0) and the content has class name
`"mobile-or-tablet"`; on desktop the position and target are those of the freshly
constructed viewer and the content node is untouched. -/
theorem setupViewer_pose (env : Env) (c : Component) (ha : env.assetLoads = true)
    (hk : env.isMobileorTablet = true → c.content.isSome) :
    ∃ c1 v, setupViewer env c = .returned c1 ∧ c1.viewerRef = some v ∧
      (env.isMobileorTablet = true →
        v.camera.position = ⟨-16.7, 1.17, 11.7⟩ ∧ v.camera.target = ⟨0, 1.37, 0⟩ ∧
        ∃ k, c1.content = some k ∧ k.className = "mobile-or-tablet") ∧
      (env.isMobileorTablet = false →
        v.camera.position = env.defaultCamera.position ∧
        v.camera.target = env.defaultCamera.target ∧ c1.content = c.content) := by
  obtain ⟨m, a, cam⟩ := env
  simp only at ha hk
  subst ha
  cases m
  · simp [setupViewer, addPlugin, onViewer, Component.log,
      addFromPath, setClipBackground, Viewer.getTonemapPlugin, Viewer.addPlugin,
      Viewer.setCameraOptions]
  · obtain ⟨k, hk⟩ := Option.isSome_iff_exists.mp (hk rfl)
    simp [setupViewer, addPlugin, onViewer, Component.log,
      addFromPath, setClipBackground, Viewer.getTonemapPlugin, Viewer.addPlugin,
      mobilePose, positionSet, targetSet, setClassName, hk, Viewer.setCameraOptions]

theorem setupViewer_pose_witness :
    mobile.assetLoads = true ∧ (mobile.isMobileorTablet = true → mounted.content.isSome) ∧
    ∃ c1 v, setupViewer mobile mounted = .returned c1 ∧ c1.viewerRef = some v ∧
      (mobile.isMobileorTablet = true →
        v.camera.position = ⟨-16.7, 1.17, 11.7⟩ ∧ v.camera.target = ⟨0, 1.37, 0⟩ ∧
        ∃ k, c1.content = some k ∧ k.className = "mobile-or-tablet") ∧
      (mobile.isMobileorTablet = false →
        v.camera.position = mobile.defaultCamera.position ∧
        v.camera.target = mobile.defaultCamera.target ∧ c1.content = mounted.content) :=
  ⟨by decide, by decide, setupViewer_pose mobile mounted (by decide) (by decide)⟩

/-- Claim C6. From every state in which both DOM nodes exist and setup has set the
state variables, whatever the device class, `triggerPreview` starts exactly two
tweens: one on the camera position with destination (13.04, -2.01, 2.29) and one
on the camera target with destination (0.11, 0.0, 0.0), each with duration 2 and
without a scroll trigger. -/
theorem triggerPreview_tweens (c : Component) (hm : Mounted c) (hs : SetupDone c) :
    tweensOf (triggerPreview c).state.calls =
      tweensOf c.calls ++
        [{ target := some .position, dest := ⟨13.04, -2.01, 2.29⟩, duration := some 2,
           scrollTrigger := none, onUpdate := some ⟨true, true⟩ },
         { target := some .target, dest := ⟨0.11, 0.0, 0.0⟩, duration := some 2,
           scrollTrigger := none, onUpdate := none }] := by
  obtain ⟨he, hk⟩ := hm
  obtain ⟨hv, hcam, hpos, htgt⟩ := hs
  obtain ⟨e, he⟩ := Option.isSome_iff_exists.mp he
  obtain ⟨k, hk⟩ := Option.isSome_iff_exists.mp hk
  obtain ⟨v, hv⟩ := Option.isSome_iff_exists.mp hv
  simp [triggerPreview, setPointerEvents, setOpacity, gsapTo, setControls, Component.log,
    Component.onUpdate, tweensOf_append, tweensOf, he, hk, hv, hcam, hpos, htgt]

theorem triggerPreview_tweens_witness :
    Mounted (setupViewer mobile mounted).state ∧ SetupDone (setupViewer mobile mounted).state ∧
    tweensOf (triggerPreview (setupViewer mobile mounted).state).state.calls =
      tweensOf (setupViewer mobile mounted).state.calls ++
        [{ target := some .position, dest := ⟨13.04, -2.01, 2.29⟩, duration := some 2,
           scrollTrigger := none, onUpdate := some ⟨true, true⟩ },
         { target := some .target, dest := ⟨0.11, 0.0, 0.0⟩, duration := some 2,
           scrollTrigger := none, onUpdate := none }] :=
  ⟨by decide, by decide, triggerPreview_tweens _ (by decide) (by decide)⟩

/-- Claim C7. From every state in which both DOM nodes exist and setup has set the
state variables, `handleExit` starts exactly two tweens, selected by the device
class recorded in `isMobile` alone: on desktop the position destination is
(1.56, 5.0, 0.01) and the target destination (-0.55, 0.32, 0.0); on mobile/tablet
they are (9.36, 10.95, 0.0) and (-1.62, 0.02, -0.06).  In both cases each tween
has no duration and carries the scroll trigger `".display-section"`, start
`"top bottom"`, end `"top top"`, scrub 2. -/
theorem handleExit_tweens (c : Component) (hm : Mounted c) (hs : SetupDone c) :
    (c.isMobile = false →
      tweensOf (handleExit c).state.calls =
        tweensOf c.calls ++
          [{ target := some .position, dest := ⟨1.56, 5.0, 0.01⟩, duration := none,
             scrollTrigger := some { trigger := ".display-section", start := "top bottom",
                                     end_ := "top top", scrub := 2, immediateRender := false },
             onUpdate := some ⟨true, true⟩ },
           { target := some .target, dest := ⟨-0.55, 0.32, 0.0⟩, duration := none,
             scrollTrigger := some { trigger := ".display-section", start := "top bottom",
                                     end_ := "top top", scrub := 2, immediateRender := false },
             onUpdate := none }]) ∧
    (c.isMobile = true →
      tweensOf (handleExit c).state.calls =
        tweensOf c.calls ++
          [{ target := some .position, dest := ⟨9.36, 10.95, 0.0⟩, duration := none,
             scrollTrigger := some { trigger := ".display-section", start := "top bottom",
                                     end_ := "top top", scrub := 2, immediateRender := false },
             onUpdate := some ⟨true, true⟩ },
           { target := some .target, dest := ⟨-1.62, 0.02, -0.06⟩, duration := none,
             scrollTrigger := some { trigger := ".display-section", start := "top bottom",
                                     end_ := "top top", scrub := 2, immediateRender := false },
             onUpdate := none }]) := by
  obtain ⟨he, hk⟩ := hm
  obtain ⟨hv, hcam, hpos, htgt⟩ := hs
  obtain ⟨e, he⟩ := Option.isSome_iff_exists.mp he
  obtain ⟨k, hk⟩ := Option.isSome_iff_exists.mp hk
  obtain ⟨v, hv⟩ := Option.isSome_iff_exists.mp hv
  constructor <;> intro hmob <;>
    simp [handleExit, setPointerEvents, setOpacity, gsapTo, setControls, Component.log,
      Component.onUpdate, tweensOf_append, tweensOf, he, hk, hv, hcam, hpos, htgt, hmob]

/-- Claim C10. From every state in which the viewer handle is still `null`,
`handleExit` throws; the preview flag keeps its prior value and no call (hence
no tween) has been made; and when both DOM nodes exist the container already has
`pointerEvents = "none"` and the content `opacity = "1"` at the point of failure. -/
theorem handleExit_before_setup (c : Component) (hv : c.viewerRef = none) :
    ∃ c1, handleExit c = .threw c1 ∧ c1.previewMode = c.previewMode ∧
      c1.calls = c.calls ∧ tweensOf c1.calls = tweensOf c.calls ∧
      (Mounted c → ∃ e k, c1.canvasContainer = some e ∧ e.style.pointerEvents = "none" ∧
        c1.content = some k ∧ k.style.opacity = "1") := by
  cases he : c.canvasContainer <;> cases hk : c.content <;>
    simp [handleExit, setPointerEvents, setOpacity, setControls, he, hk, hv, Mounted]

theorem handleExit_tweens_witness :
    Mounted (triggerPreview (setupViewer desktop mounted).state).state ∧
    SetupDone (triggerPreview (setupViewer desktop mounted).state).state ∧
    tweensOf (handleExit (triggerPreview (setupViewer desktop mounted).state).state).state.calls =
      tweensOf (triggerPreview (setupViewer desktop mounted).state).state.calls ++
        [{ target := some .position, dest := ⟨1.56, 5.0, 0.01⟩, duration := none,
           scrollTrigger := some { trigger := ".display-section", start := "top bottom",
                                   end_ := "top top", scrub := 2, immediateRender := false },
           onUpdate := some ⟨true, true⟩ },
         { target := some .target, dest := ⟨-0.55, 0.32, 0.0⟩, duration := none,
           scrollTrigger := some { trigger := ".display-section", start := "top bottom",
                                   end_ := "top top", scrub := 2, immediateRender := false },
           onUpdate := none }] :=
  ⟨by decide, by decide, (handleExit_tweens _ (by decide) (by decide)).1 (by decide)⟩

theorem handleExit_before_setup_witness :
    (triggerPreview mounted).state.viewerRef = none ∧
    Mounted (triggerPreview mounted).state ∧
    (triggerPreview mounted).state.previewMode = true ∧
    (triggerPreview mounted).state.canvasContainer =
      some { style := { pointerEvents := "all", opacity := "1" }, className := "" } ∧
    (triggerPreview mounted).state.content =
      some { style := { pointerEvents := "", opacity := "0" }, className := "content" } ∧
    ∃ c1, handleExit (triggerPreview mounted).state = .threw c1 ∧
      c1.previewMode = true ∧
      c1.calls = (triggerPreview mounted).state.calls ∧
      tweensOf c1.calls = tweensOf (triggerPreview mounted).state.calls ∧
      ∃ e k, c1.canvasContainer = some e ∧ e.style.pointerEvents = "none" ∧
        c1.content = some k ∧ k.style.opacity = "1" := by
  obtain ⟨c1, h1, h2, h3, h4, h5⟩ :=
    handleExit_before_setup (triggerPreview mounted).state (by decide)
  exact ⟨by decide, by decide, by decide, by decide, by decide,
    c1, h1, h2.trans (by decide), h3, h4, h5 (by decide)⟩

/-- Claim C8 as stated, refuted. After a desktop setup, not every tween started by
`triggerPreview` drives the force-recompute calls on its update step: the
camera-target tween has no `onUpdate`, so its step calls neither `setDirty` nor
`positionTargetUpdated(true)`. -/
theorem triggerPreview_target_tween_silent :
    ¬ ∀ t ∈ tweensOf (triggerPreview (setupViewer desktop mounted).state).state.calls,
        ∀ s : Component,
          (t.update s).state.calls = s.calls ++ [.setDirty, .positionTargetUpdated true] := by
  intro h
  have ht : (setupViewer desktop mounted).state.targetRef = some .target := by decide
  have h1 := h { target := some .target, dest := ⟨0.11, 0.0, 0.0⟩, duration := some 2,
                 scrollTrigger := none, onUpdate := none }
    (by rw [triggerPreview_started _ (by decide), ht]; simp)
    mounted
  simp [Tween.update] at h1

/-- Claim C8, amended. From every state in which both DOM nodes exist and setup has
set the state variables, `triggerPreview` starts a camera-position tween and a
camera-target tween; every update step of the position tween returns after
calling `setDirty` and then `positionTargetUpdated(true)` and leaves the viewer
dirty, while the target tween has no `onUpdate` and its update step calls nothing. -/
theorem triggerPreview_onUpdate (c : Component) (hm : Mounted c) (hs : SetupDone c) :
    ∃ tp tt : Tween,
      tweensOf (triggerPreview c).state.calls = tweensOf c.calls ++ [tp, tt] ∧
      tp.target = some .position ∧ tt.target = some .target ∧
      (∀ s : Component, ∃ s1, tp.update s = .returned s1 ∧
        s1.calls = s.calls ++ [.setDirty, .positionTargetUpdated true] ∧
        ∀ v, s.viewerRef = some v → ∃ v1, s1.viewerRef = some v1 ∧ v1.dirty = true) ∧
      tt.onUpdate = none ∧ ∀ s : Component, tt.update s = .returned s := by
  obtain ⟨hv, hcam, hpos, htgt⟩ := hs
  refine ⟨_, _, triggerPreview_started c hm, hpos, htgt, ?_, rfl, fun s => rfl⟩
  intro s
  obtain ⟨v, hv⟩ := Option.isSome_iff_exists.mp hv
  simp [Tween.update, Callback.run, Component.onUpdate, Component.log, hv, hcam,
    Viewer.setDirty]
  exact fun w hw => ⟨w, hw⟩

theorem triggerPreview_onUpdate_witness :
    Mounted (setupViewer desktop mounted).state ∧ SetupDone (setupViewer desktop mounted).state ∧
    ∃ tp tt : Tween,
      tweensOf (triggerPreview (setupViewer desktop mounted).state).state.calls =
        tweensOf (setupViewer desktop mounted).state.calls ++ [tp, tt] ∧
      tp.target = some .position ∧ tt.target = some .target ∧
      (∀ s : Component, ∃ s1, tp.update s = .returned s1 ∧
        s1.calls = s.calls ++ [.setDirty, .positionTargetUpdated true] ∧
        ∀ v, s.viewerRef = some v → ∃ v1, s1.viewerRef = some v1 ∧ v1.dirty = true) ∧
      tt.onUpdate = none ∧ ∀ s : Component, tt.update s = .returned s :=
  ⟨by decide, by decide, triggerPreview_onUpdate _ (by decide) (by decide)⟩

/-! ## The per-frame hook -/

theorem recomputes_iff (c : Component) : recomputes c ↔ c.needsUpdate = some true := by
  unfold recomputes preFrame
  cases h : c.needsUpdate with
  | none => simp
  | some b => cases b <;> simp [Component.log]

theorem preFrame_needsUpdate (c : Component) : (preFrame c).needsUpdate ≠ some true := by
  unfold preFrame
  cases h : c.needsUpdate with
  | none => simp [h]
  | some b => cases b <;> simp [h, Component.log]

theorem deliverAll_snoc (c : Component) (es : List Event) (e : Event) :
    deliverAll c (es ++ [e]) = e.deliver (deliverAll c es) := by
  simp [deliverAll, List.foldl_append]

theorem deliver_viewerRef (c : Component) (e : Event) :
    (e.deliver c).viewerRef.isSome = c.viewerRef.isSome := by
  cases e
  · cases h : c.viewerRef <;> simp [Event.deliver, onUpload, Component.log, h]
  · unfold Event.deliver preFrame
    cases h : c.needsUpdate with
    | none => simp
    | some b => cases b <;> simp [Component.log]

theorem deliverAll_viewerRef (c : Component) (es : List Event) :
    (deliverAll c es).viewerRef.isSome = c.viewerRef.isSome := by
  induction es using List.reverseRecOn with
  | nil => rfl
  | append_singleton es e ih => rw [deliverAll_snoc, deliver_viewerRef, ih]

/-- No list that ends in a frame event ends in an update followed by frame-free events. -/
theorem not_update_tail_of_frame_last (es l1 l2 : List Event)
    (h : es ++ [Event.frame] = l1 ++ Event.update :: l2) : Event.frame ∈ l2 := by
  have hr := congrArg List.reverse h
  simp only [List.reverse_append, List.reverse_cons, List.reverse_nil, List.nil_append,
    List.singleton_append, List.append_assoc] at hr
  cases hl : l2.reverse with
  | nil => rw [hl] at hr; simp at hr
  | cons x t =>
    rw [hl] at hr
    simp only [List.cons_append, List.cons.injEq] at hr
    have : x ∈ l2.reverse := by rw [hl]; exact List.mem_cons_self _ _
    rw [← hr.1] at this
    exact List.mem_reverse.mp this

/-- The value of the `needsUpdate` flag after a sequence of events that starts
with the flag set. -/
theorem needsUpdate_deliverAll (c : Component) (h : c.needsUpdate = some true)
    (es : List Event) :
    (deliverAll c es).needsUpdate = some true ↔
      Event.frame ∉ es ∨ ∃ l1 l2, es = l1 ++ Event.update :: l2 ∧ Event.frame ∉ l2 := by
  induction es using List.reverseRecOn with
  | nil => simp [deliverAll, h]
  | append_singleton es e ih =>
    rw [deliverAll_snoc]
    cases e with
    | update =>
      constructor
      · intro _
        exact Or.inr ⟨es, [], rfl, by simp⟩
      · intro _
        simp [Event.deliver, onUpload, Component.log]
    | frame =>
      constructor
      · intro hf
        exact absurd hf (preFrame_needsUpdate _)
      · rintro (hn | ⟨l1, l2, hl, hn⟩)
        · exact absurd (by simp) hn
        · exact absurd (not_update_tail_of_frame_last es l1 l2 hl) hn

/-- Claim C9. After a run of `setupViewer` that returned, and after any finite
sequence `pre` of update and frame events, the next frame event calls
`positionTargetUpdated(true)` if and only if `pre` contains no frame event or
contains an update event with no frame event after it; a frame event that does
not recompute changes nothing; a frame event directly after a frame event never
recomputes; and an update event sets `needsUpdate` to true, calls `setDirty` and
leaves the viewer dirty. -/
theorem preFrame_edge_triggered (env : Env) (c0 c : Component)
    (h : setupViewer env c0 = .returned c) (pre : List Event) :
    (recomputes (deliverAll c pre) ↔
      Event.frame ∉ pre ∨ ∃ l1 l2, pre = l1 ++ Event.update :: l2 ∧ Event.frame ∉ l2) ∧
    (¬ recomputes (deliverAll c pre) → preFrame (deliverAll c pre) = deliverAll c pre) ∧
    ¬ recomputes (preFrame (deliverAll c pre)) ∧
    (onUpload (deliverAll c pre)).needsUpdate = some true ∧
    (onUpload (deliverAll c pre)).calls = (deliverAll c pre).calls ++ [.setDirty] ∧
    ∃ v, (onUpload (deliverAll c pre)).viewerRef = some v ∧ v.dirty = true := by
  obtain ⟨⟨hv, -⟩, hn, -⟩ := setupViewer_returned env c0 c h
  refine ⟨?_, ?_, ?_, rfl, rfl, ?_⟩
  · rw [recomputes_iff]
    exact needsUpdate_deliverAll c hn pre
  · rw [recomputes_iff]
    intro hne
    unfold preFrame
    split
    · next heq => exact absurd heq hne
    · rfl
  · rw [recomputes_iff]
    exact preFrame_needsUpdate _
  · have hs : (deliverAll c pre).viewerRef.isSome := by rw [deliverAll_viewerRef]; exact hv
    obtain ⟨v, hv1⟩ := Option.isSome_iff_exists.mp hs
    exact ⟨v.setDirty, by simp [onUpload, Component.log, hv1], rfl⟩

theorem preFrame_edge_triggered_witness :
    setupViewer desktop mounted = .returned (setupViewer desktop mounted).state ∧
    recomputes (deliverAll (setupViewer desktop mounted).state [.update, .frame, .update]) ∧
    ¬ recomputes (deliverAll (setupViewer desktop mounted).state [.update, .frame]) :=
  ⟨by decide,
   (preFrame_edge_triggered desktop mounted _ (by decide) [.update, .frame, .update]).1.mpr
     (Or.inr ⟨[.update, .frame], [], rfl, by simp⟩),
   by decide⟩

end WebgiViewer
